import Mathlib

set_option autoImplicit false

/-!
Shallow embedding of the analysis-request orchestration of the
code-analyzer dashboard server: the `/api/issues` endpoint and the
`POST /api/analyze` fallback chain of the enhanced Express server
(`server.js`, first document of `src/unnamed/part_005`), together with
the two AI integration services (`src/server/ai_integration.js` and
`src/server/advanced_ai_integration.js`).

External effects (the remote cloud-function fetch, the spawned local
analysis process, `Math.random()`, clocks) are modelled as explicit
oracle parameters collected in a `World` record; each JavaScript
promise-returning function becomes a Lean function into
`Except JsError _`, where `Except.error` is a rejected promise.
-/

/-- A JavaScript `Error` value: we only track its `message`. -/
structure JsError where
  message : String
deriving DecidableEq, Repr

/-- A JavaScript number as relevant here: a finite value (modelled as a
rational), `NaN`, or a signed infinity.  Division of `0` by `0` —
the shape that arises when averaging over an empty issue list —
produces `NaN`. -/
inductive JsNum where
  | num : ℚ → JsNum
  | nan : JsNum
  | inf : JsNum
  | neginf : JsNum
deriving DecidableEq, Repr

/-- JavaScript division of two finite numbers (`a / b`): `0 / 0` is
`NaN` and `a / 0` for `a ≠ 0` is a signed infinity. -/
def jsDiv (a b : ℚ) : JsNum :=
  if b = 0 then
    if a = 0 then JsNum.nan
    else if 0 < a then JsNum.inf
    else JsNum.neginf
  else JsNum.num (a / b)

/-- Models how `JSON.stringify` serializes a JavaScript number:
finite values survive, while `NaN` and the infinities become JSON
`null` (modelled as `none`). -/
def JsNum.toJsonNumber : JsNum → Option ℚ
  | JsNum.num q => some q
  | _ => none

/-- `Math.floor` on a finite number. -/
def mathFloor (q : ℚ) : ℤ := ⌊q⌋

/-- JavaScript `x || d` for an optional string `x`: `undefined` and the
empty string are falsy and yield the default. -/
def jsOrStr (x : Option String) (d : String) : String :=
  match x with
  | some s => if s = "" then d else s
  | none => d

/-- JavaScript truthiness of an optional string (e.g. of
`process.env.CLOUD_FUNCTION_URL`): `undefined` and `""` are falsy. -/
def strTruthy : Option String → Bool
  | some s => s ≠ ""
  | none => false

/-! ### The `/api/issues` endpoint (enhanced server, lines 102–199) -/

/-- One record of the fixed issue set served by `GET /api/issues`. -/
structure Issue where
  type : String
  severity : String
  file : String
  line : ℕ
  message : String
  rule : String
  suggestion : String
  ai_detected : Bool
  confidence : ℚ
  ai_model : String
  cloud_function_analysis : Bool
  remediation_priority : ℕ
deriving DecidableEq, Repr

/-- The fixed issue set of the enhanced server's `GET /api/issues`
handler (`src/unnamed/part_005`, lines 103–160). -/
def fixedIssues : List Issue :=
  [ { type := "security", severity := "critical", file := "auth/login.py", line := 42,
      message := "SQL injection vulnerability detected by Cloud Function AI",
      rule := "CF-SEC-001",
      suggestion := "Use parameterized queries. Cloud Function analysis shows 97% confidence this is exploitable.",
      ai_detected := true, confidence := 97/100,
      ai_model := "vertex-ai-cloud-function", cloud_function_analysis := true,
      remediation_priority := 1 },
    { type := "quality", severity := "high", file := "utils/helpers.py", line := 128,
      message := "High cyclomatic complexity detected across repository context",
      rule := "CF-QUAL-002",
      suggestion := "Cloud Function AI recommends refactoring based on repository-wide analysis",
      ai_detected := true, confidence := 91/100,
      ai_model := "vertex-ai-cloud-function", cloud_function_analysis := true,
      remediation_priority := 2 },
    { type := "performance", severity := "medium", file := "api/endpoints.py", line := 67,
      message := "Repository-wide performance pattern analysis reveals bottleneck",
      rule := "CF-PERF-003",
      suggestion := "Cloud Function detected similar patterns in 3 other files - implement caching strategy",
      ai_detected := true, confidence := 88/100,
      ai_model := "vertex-ai-cloud-function", cloud_function_analysis := true,
      remediation_priority := 3 },
    { type := "security", severity := "high", file := "config/settings.py", line := 15,
      message := "Hardcoded secrets detected by multi-file AI analysis",
      rule := "CF-SEC-004",
      suggestion := "Cloud Function found 5 similar patterns across repository - implement secret management",
      ai_detected := true, confidence := 93/100,
      ai_model := "vertex-ai-cloud-function", cloud_function_analysis := true,
      remediation_priority := 1 } ]

/-- Query parameters of `GET /api/issues`; `none` is an absent
parameter, `some ""` an empty one (both falsy in the handler's
`if (type)` / `if (severity)` guards). -/
structure IssuesQuery where
  type : Option String
  severity : Option String
  ai_only : Option String
  cloud_function_only : Option String
deriving DecidableEq, Repr

/-- The filter cascade of the `GET /api/issues` handler
(`src/unnamed/part_005`, lines 162–179). -/
def applyFilters (q : IssuesQuery) (issues : List Issue) : List Issue :=
  let l1 := if strTruthy q.type then issues.filter (fun i => i.type == q.type.getD "") else issues
  let l2 := if strTruthy q.severity then l1.filter (fun i => i.severity == q.severity.getD "") else l1
  let l3 := if q.ai_only == some "true" then l2.filter (fun i => i.ai_detected) else l2
  if q.cloud_function_only == some "true" then l3.filter (fun i => i.cloud_function_analysis) else l3

/-- The order imposed by the handler's comparator
(lines 182–187): ascending `remediation_priority`, ties broken by
descending `confidence`. -/
def issueLE (a b : Issue) : Prop :=
  a.remediation_priority < b.remediation_priority ∨
    (a.remediation_priority = b.remediation_priority ∧ b.confidence ≤ a.confidence)

instance : DecidableRel issueLE := fun a b => by
  unfold issueLE
  infer_instance

instance : IsTotal Issue issueLE where
  total a b := by
    unfold issueLE
    rcases Nat.lt_trichotomy a.remediation_priority b.remediation_priority with h | h | h
    · exact Or.inl (Or.inl h)
    · rcases le_total a.confidence b.confidence with hc | hc
      · exact Or.inr (Or.inr ⟨h.symm, hc⟩)
      · exact Or.inl (Or.inr ⟨h, hc⟩)
    · exact Or.inr (Or.inl h)

instance : IsTrans Issue issueLE where
  trans a b c hab hbc := by
    unfold issueLE at hab hbc ⊢
    rcases hab with h1 | ⟨h1, hc1⟩
    · rcases hbc with h2 | ⟨h2, _⟩
      · exact Or.inl (h1.trans h2)
      · exact Or.inl (h2 ▸ h1)
    · rcases hbc with h2 | ⟨h2, hc2⟩
      · exact Or.inl (h1 ▸ h2)
      · exact Or.inr ⟨h1.trans h2, hc2.trans hc1⟩

/-- The metadata block attached to the `GET /api/issues` response
(lines 191–197).  `avg_confidence` is the JavaScript quotient
`sum / length`, hence a `JsNum`. -/
structure IssuesMetadata where
  total_issues : ℕ
  ai_detected_issues : ℕ
  cloud_function_issues : ℕ
  avg_confidence : JsNum
  high_confidence_issues : ℕ
deriving DecidableEq, Repr

/-- The `GET /api/issues` response body. -/
structure IssuesResponse where
  issues : List Issue
  metadata : IssuesMetadata
deriving DecidableEq, Repr

/-- The `GET /api/issues` handler (`src/unnamed/part_005`,
lines 102–199): filter the fixed issue set, sort it with the
priority/confidence comparator (a stable sort, modelled by
`List.insertionSort`), and attach the metadata computed over the
sorted list. -/
def issuesHandler (q : IssuesQuery) : IssuesResponse :=
  let filtered := List.insertionSort issueLE (applyFilters q fixedIssues)
  { issues := filtered,
    metadata :=
      { total_issues := filtered.length,
        ai_detected_issues := (filtered.filter (fun i => i.ai_detected)).length,
        cloud_function_issues := (filtered.filter (fun i => i.cloud_function_analysis)).length,
        avg_confidence := jsDiv ((filtered.map (fun i => i.confidence)).sum) (filtered.length),
        high_confidence_issues := (filtered.filter (fun i => decide (9/10 < i.confidence))).length } }

/-! ### The analysis-result data model (`POST /api/analyze`) -/

/-- One issue inside an analysis result (shape of the deterministic
fallback's canned issues, `advanced_ai_integration.js` lines 281–302;
remote issues delivered by the cloud function use the same slots). -/
structure AIssue where
  type : String
  severity : String
  file : String
  line : ℕ
  message : String
  rule : String
  suggestion : String
  confidence : ℚ
deriving DecidableEq, Repr

/-- The `repository_analysis` block of an analysis result. -/
structure RepositoryAnalysis where
  overall_score : ℤ
  total_files : ℤ
  risk_level : String
  deployment_ready : Bool
deriving DecidableEq, Repr

/-- The `metadata` object a cloud-function response may carry; the
server only dereferences `metadata?.files_analyzed`. -/
structure CloudMetadata where
  files_analyzed : Option ℤ
deriving DecidableEq, Repr

/-- The `enhanced_metadata` block added by
`AdvancedAIService.enhanceAnalysisResult` (lines 248–255). -/
structure EnhancedMetadata where
  analysis_timestamp : String
  analysis_method : String
  ai_powered : Bool
  vertex_ai_enabled : Bool
  endpoint_id : Option String
  service_version : String
deriving DecidableEq, Repr

/-- The `performance_metrics` block added by
`AdvancedAIService.enhanceAnalysisResult` (lines 256–261). -/
structure PerformanceMetrics where
  analysis_duration : String
  files_processed : ℤ
  ai_confidence : ℚ
  model_version : String
deriving DecidableEq, Repr

/-- The `request_metadata` block the `POST /api/analyze` handler adds
to every successful result (`src/unnamed/part_005`, lines 291–298). -/
structure RequestMetadata where
  analysis_type : String
  ai_enabled : Bool
  cloud_function_enabled : Bool
  processing_time : String
  request_id : String
  api_version : String
deriving DecidableEq, Repr

/-- An analysis-result object as assembled by any of the backends.
Every top-level property that any branch of the orchestration may
assign appears as an `Option` field; `none` means the property was
never assigned on that branch.  `repoPath`, `commitHash` and
`metadata` can be assigned an `undefined` value (inner `none`), which
`JSON.stringify` then drops. -/
structure AnalysisResults where
  success : Option Bool
  message : Option String
  repoPath : Option (Option String)
  commitHash : Option (Option String)
  timestamp : Option String
  issues : Option (List AIssue)
  metadata : Option (Option CloudMetadata)
  cloud_function_used : Option Bool
  repository_analysis : Option RepositoryAnalysis
  cloud_function_fallback : Option Bool
  ai_powered : Option Bool
  fallback_mode : Option Bool
  recommendations : Option (List String)
  summary : Option String
  enhanced_metadata : Option EnhancedMetadata
  performance_metrics : Option PerformanceMetrics
  request_metadata : Option RequestMetadata
  error : Option String
  fallback_available : Option Bool
deriving DecidableEq, Repr

/-- The set of top-level keys of the serialized JSON object, listed in
a fixed canonical order.  A property assigned the value `undefined`
(inner `none`) is dropped by `JSON.stringify`, so it is not listed. -/
def AnalysisResults.jsonKeys (r : AnalysisResults) : List String :=
  (if r.success.isSome then ["success"] else []) ++
  (if r.message.isSome then ["message"] else []) ++
  (match r.repoPath with | some (some _) => ["repoPath"] | _ => []) ++
  (match r.commitHash with | some (some _) => ["commitHash"] | _ => []) ++
  (if r.timestamp.isSome then ["timestamp"] else []) ++
  (if r.issues.isSome then ["issues"] else []) ++
  (match r.metadata with | some (some _) => ["metadata"] | _ => []) ++
  (if r.cloud_function_used.isSome then ["cloud_function_used"] else []) ++
  (if r.repository_analysis.isSome then ["repository_analysis"] else []) ++
  (if r.cloud_function_fallback.isSome then ["cloud_function_fallback"] else []) ++
  (if r.ai_powered.isSome then ["ai_powered"] else []) ++
  (if r.fallback_mode.isSome then ["fallback_mode"] else []) ++
  (if r.recommendations.isSome then ["recommendations"] else []) ++
  (if r.summary.isSome then ["summary"] else []) ++
  (if r.enhanced_metadata.isSome then ["enhanced_metadata"] else []) ++
  (if r.performance_metrics.isSome then ["performance_metrics"] else []) ++
  (if r.request_metadata.isSome then ["request_metadata"] else []) ++
  (if r.error.isSome then ["error"] else []) ++
  (if r.fallback_available.isSome then ["fallback_available"] else [])

/-- Outcome of the `close` event of the spawned local analysis
process: exit status 0 with parseable JSON on stdout, exit status 0
with unparseable stdout, or a non-zero exit status. -/
inductive LocalOutcome where
  | success : AnalysisResults → LocalOutcome
  | parseFailure : String → LocalOutcome
  | processFailure : ℤ → String → LocalOutcome
deriving DecidableEq, Repr

/-- Lifecycle of the spawned process as observed by
`AIAnalysisService.analyzeWithAI`, which additionally listens for the
`error` event (process failed to start). -/
inductive SpawnEvent where
  | closed : LocalOutcome → SpawnEvent
  | failedToStart : JsError → SpawnEvent
deriving DecidableEq, Repr

/-- The JSON body a 2xx cloud-function response carries, as consumed
by the server-level cloud branch. -/
structure CloudResult where
  status : String
  issues : Option (List AIssue)
  metadata : Option CloudMetadata
  repository_analysis : Option RepositoryAnalysis
deriving DecidableEq, Repr

/-- Outcome of the `fetch` the server-level cloud branch performs
(`src/unnamed/part_005`, lines 217–233): a 2xx response whose JSON
body parsed, a non-2xx response (with its `statusText`), or a network
error (rejected `fetch`). -/
inductive FetchOutcome where
  | ok : CloudResult → FetchOutcome
  | httpError : String → FetchOutcome
  | networkError : String → FetchOutcome
deriving DecidableEq, Repr

/-- Outcome of the `fetch` inside
`AdvancedAIService.analyzeWithCloudFunction` (lines 221–233), whose
2xx body carries the result under an `analysis` key. -/
inductive SvcFetchOutcome where
  | ok : AnalysisResults → SvcFetchOutcome
  | httpError : String → SvcFetchOutcome
  | networkError : String → SvcFetchOutcome
deriving DecidableEq, Repr

/-- Which backend a request consulted; the handler embedding records
the consulted backends in order. -/
inductive Backend where
  | remote
  | svcRemote
  | localProcess
  | deterministic
  | standard
deriving DecidableEq, Repr

/-- The mutable fields of `AdvancedAIService` relevant here. -/
structure ServiceState where
  isInitialized : Bool
  endpointId : Option String
deriving DecidableEq, Repr

/-- All external effects a single `POST /api/analyze` request can
observe: the environment, the two fetch oracles, the service state,
the local process outcome, the `Math.random()` draws of each call
site, and the clock. -/
structure World where
  cloudFunctionUrl : Option String
  fetchOutcome : FetchOutcome
  svcFetch : SvcFetchOutcome
  svcInitialized : Bool
  svcEndpointId : Option String
  localOutcome : LocalOutcome
  randCloudScore : ℚ
  randFallbackScore : ℚ
  randFallbackFiles : ℚ
  randStdScore : ℚ
  randStdFiles : ℚ
  now : String
  nowMillis : ℕ

/-! ### `AdvancedAIService` (src/server/advanced_ai_integration.js) -/

/-- The options object passed to
`AdvancedAIService.analyzeRepositoryWithAI`. -/
structure SvcOptions where
  commitHash : Option String
  analysisType : Option String
  useCloudFunction : Option Bool
deriving DecidableEq, Repr

/-- The normalized `analysisData` built inside
`analyzeRepositoryWithAI` (lines 153–158): `options.commitHash || 'HEAD'`,
`options.analysisType || 'comprehensive'`, `options.useCloudFunction || false`. -/
structure AnalysisData where
  repoPath : Option String
  commitHash : String
  analysisType : String
  useCloudFunction : Bool
deriving DecidableEq, Repr

/-- The canned issue list of the deterministic fallback
(`advanced_ai_integration.js` lines 281–302). -/
def fallbackIssues : List AIssue :=
  [ { type := "quality", severity := "medium", file := "example.py", line := 42,
      message := "Function complexity could be reduced", rule := "FALLBACK-001",
      suggestion := "Consider breaking down complex functions", confidence := 7/10 },
    { type := "security", severity := "high", file := "auth.py", line := 15,
      message := "Potential security vulnerability detected", rule := "FALLBACK-002",
      suggestion := "Review authentication implementation", confidence := 6/10 } ]

/-- `AdvancedAIService.getFallbackAnalysis` (lines 265–312): the
deterministic fallback result.  `Math.floor(Math.random() * 20) + 75`
and `Math.floor(Math.random() * 30) + 20` are taken from the world's
random draws. -/
def getFallbackAnalysis (w : World) (repoPath : Option String)
    (optsCommitHash : Option String) : AnalysisResults :=
  { success := some true,
    message := some "Analysis completed using fallback mode",
    repoPath := some repoPath,
    commitHash := some (some (jsOrStr optsCommitHash "HEAD")),
    timestamp := some w.now,
    issues := some fallbackIssues,
    metadata := none,
    cloud_function_used := none,
    repository_analysis := some
      { overall_score := mathFloor (w.randFallbackScore * 20) + 75,
        total_files := mathFloor (w.randFallbackFiles * 30) + 20,
        risk_level := "medium",
        deployment_ready := true },
    cloud_function_fallback := none,
    ai_powered := some false,
    fallback_mode := some true,
    recommendations := some
      [ "Enable AI analysis for more comprehensive results",
        "Configure Vertex AI credentials for advanced features",
        "Consider implementing automated testing" ],
    summary := some "Fallback analysis completed. Enable AI for enhanced results.",
    enhanced_metadata := none,
    performance_metrics := none,
    request_metadata := none,
    error := none,
    fallback_available := none }

/-- `AdvancedAIService.enhanceAnalysisResult` (lines 244–263): spread
the backend's result and overwrite `enhanced_metadata` and
`performance_metrics`; `result.repository_analysis?.total_files || 0`
defaults a missing block to `0`. -/
def enhanceAnalysisResult (svc : ServiceState) (result : AnalysisResults)
    (d : AnalysisData) (now : String) : AnalysisResults :=
  { result with
    enhanced_metadata := some
      { analysis_timestamp := now,
        analysis_method := if d.useCloudFunction then "cloud_function" else "local_endpoint",
        ai_powered := true,
        vertex_ai_enabled := svc.isInitialized,
        endpoint_id := svc.endpointId,
        service_version := "2.0.0" },
    performance_metrics := some
      { analysis_duration := "45.2s",
        files_processed :=
          match result.repository_analysis with
          | some ra => ra.total_files
          | none => 0,
        ai_confidence := 92/100,
        model_version := "vertex-ai-code-bison-v2" } }

/-- `AdvancedAIService.analyzeWithLocalEndpoint` (lines 172–210): on a
zero exit status with parseable stdout the parsed result is enhanced
and resolved; on a JSON parse failure or a non-zero exit status the
promise is RESOLVED with the deterministic fallback (never rejected). -/
def analyzeWithLocalEndpoint (svc : ServiceState) (w : World) (d : AnalysisData) :
    Except JsError AnalysisResults × List Backend :=
  match w.localOutcome with
  | LocalOutcome.success parsed =>
      (Except.ok (enhanceAnalysisResult svc parsed d w.now), [Backend.localProcess])
  | LocalOutcome.parseFailure _ =>
      (Except.ok (getFallbackAnalysis w d.repoPath (some d.commitHash)),
       [Backend.localProcess, Backend.deterministic])
  | LocalOutcome.processFailure _ _ =>
      (Except.ok (getFallbackAnalysis w d.repoPath (some d.commitHash)),
       [Backend.localProcess, Backend.deterministic])

/-- `AdvancedAIService.analyzeWithCloudFunction` (lines 212–242):
throw when no URL is configured; otherwise POST to the cloud function
and enhance `result.analysis`; a non-2xx status or a rejected fetch is
rethrown as an error. -/
def analyzeWithCloudFunction (svc : ServiceState) (w : World) (d : AnalysisData) :
    Except JsError AnalysisResults × List Backend :=
  if strTruthy w.cloudFunctionUrl = false then
    (Except.error { message := "Cloud Function URL not configured" }, [])
  else
    match w.svcFetch with
    | SvcFetchOutcome.ok analysis =>
        (Except.ok (enhanceAnalysisResult svc analysis d w.now), [Backend.svcRemote])
    | SvcFetchOutcome.httpError statusText =>
        (Except.error { message := "Cloud Function request failed: " ++ statusText },
         [Backend.svcRemote])
    | SvcFetchOutcome.networkError m =>
        (Except.error { message := m }, [Backend.svcRemote])

/-- `AdvancedAIService.analyzeRepositoryWithAI` (lines 143–170): an
uninitialized service returns the fallback immediately; otherwise the
cloud-function or local-endpoint path is tried and any thrown error is
caught and converted into the deterministic fallback. -/
def analyzeRepositoryWithAI (svc : ServiceState) (w : World)
    (repoPath : Option String) (opts : SvcOptions) :
    Except JsError AnalysisResults × List Backend :=
  if svc.isInitialized = false then
    (Except.ok (getFallbackAnalysis w repoPath opts.commitHash), [Backend.deterministic])
  else
    let d : AnalysisData :=
      { repoPath := repoPath,
        commitHash := jsOrStr opts.commitHash "HEAD",
        analysisType := jsOrStr opts.analysisType "comprehensive",
        useCloudFunction := opts.useCloudFunction.getD false }
    match (if d.useCloudFunction then analyzeWithCloudFunction svc w d
           else analyzeWithLocalEndpoint svc w d) with
    | (Except.ok r, tr) => (Except.ok r, tr)
    | (Except.error _, tr) =>
        (Except.ok (getFallbackAnalysis w repoPath opts.commitHash),
         tr ++ [Backend.deterministic])

/-! ### `AIAnalysisService` (src/server/ai_integration.js) -/

/-- `AIAnalysisService.analyzeWithAI` (lines 10–52): resolve the parsed
JSON on a zero exit status; reject with an `Error` on a JSON parse
failure, a non-zero exit status, or a failure to start the process. -/
def analyzeWithAI (ev : SpawnEvent) : Except JsError AnalysisResults :=
  match ev with
  | SpawnEvent.closed (LocalOutcome.success parsed) => Except.ok parsed
  | SpawnEvent.closed (LocalOutcome.parseFailure _) =>
      Except.error { message := "Invalid AI analysis output" }
  | SpawnEvent.closed (LocalOutcome.processFailure code _) =>
      Except.error { message := "AI analysis process exited with code " ++ toString code }
  | SpawnEvent.failedToStart e => Except.error e

/-! ### The `POST /api/analyze` handler (enhanced server, lines 202–314) -/

/-- The parsed JSON request body of `POST /api/analyze`; `none` marks
an absent (hence `undefined`) property, to which the destructuring
defaults `analysisType = 'comprehensive'`, `useAI = true`,
`useCloudFunction = false` apply. -/
structure AnalyzeReqBody where
  repoPath : Option String
  commitHash : Option String
  analysisType : Option String
  useAI : Option Bool
  useCloudFunction : Option Bool
deriving DecidableEq, Repr

/-- The server-level cloud-function call (lines 215–250): translate
the fetch outcome into either a thrown error or the result object
literal of lines 235–250. -/
def serverCloudCall (w : World) (repoPath commitHash : Option String) :
    Except JsError AnalysisResults × List Backend :=
  match w.fetchOutcome with
  | FetchOutcome.networkError m => (Except.error { message := m }, [Backend.remote])
  | FetchOutcome.httpError statusText =>
      (Except.error { message := "Cloud Function request failed: " ++ statusText },
       [Backend.remote])
  | FetchOutcome.ok cloudResult =>
      (Except.ok
        { success := some (cloudResult.status == "success"),
          message := some "Cloud Function analysis completed successfully",
          repoPath := some repoPath,
          commitHash := some commitHash,
          timestamp := some w.now,
          issues := some (cloudResult.issues.getD []),
          metadata := some cloudResult.metadata,
          cloud_function_used := some true,
          repository_analysis := some
            (match cloudResult.repository_analysis with
             | some ra => ra
             | none =>
               { overall_score := mathFloor (w.randCloudScore * 20) + 80,
                 total_files :=
                   match cloudResult.metadata with
                   | some m => m.files_analyzed.getD 0
                   | none => 0,
                 risk_level := "medium",
                 deployment_ready := true }),
          cloud_function_fallback := none,
          ai_powered := none,
          fallback_mode := none,
          recommendations := none,
          summary := none,
          enhanced_metadata := none,
          performance_metrics := none,
          request_metadata := none,
          error := none,
          fallback_available := none },
       [Backend.remote])

/-- The standard-analysis branch (lines 269–288). -/
def standardAnalysis (w : World) (repoPath commitHash : Option String) : AnalysisResults :=
  { success := some true,
    message := some "Standard analysis completed",
    repoPath := some repoPath,
    commitHash := some commitHash,
    timestamp := some w.now,
    issues := none,
    metadata := none,
    cloud_function_used := none,
    repository_analysis := some
      { overall_score := mathFloor (w.randStdScore * 20) + 80,
        total_files := mathFloor (w.randStdFiles * 20) + 40,
        risk_level := "medium",
        deployment_ready := true },
    cloud_function_fallback := none,
    ai_powered := some false,
    fallback_mode := none,
    recommendations := none,
    summary := none,
    enhanced_metadata := none,
    performance_metrics := none,
    request_metadata := none,
    error := none,
    fallback_available := none }

/-- The catch branch of the handler (lines 304–312): the HTTP 500
body, which carries `error.message` verbatim in its `error` field. -/
def analyzeErrorBody (w : World) (e : JsError) (repoPath commitHash : Option String) :
    AnalysisResults :=
  { success := some false,
    message := some "Analysis failed",
    repoPath := some repoPath,
    commitHash := some commitHash,
    timestamp := some w.now,
    issues := none,
    metadata := none,
    cloud_function_used := none,
    repository_analysis := none,
    cloud_function_fallback := none,
    ai_powered := none,
    fallback_mode := none,
    recommendations := none,
    summary := none,
    enhanced_metadata := none,
    performance_metrics := none,
    request_metadata := none,
    error := some e.message,
    fallback_available := some true }

/-- The request-metadata enrichment applied to every successful result
(lines 291–298). -/
def addRequestMetadata (w : World) (analysisType : String)
    (useAI useCloudFunction : Bool) (r : AnalysisResults) : AnalysisResults :=
  { r with
    request_metadata := some
      { analysis_type := analysisType,
        ai_enabled := useAI,
        cloud_function_enabled := useCloudFunction,
        processing_time := "45.2s",
        request_id := "req_" ++ toString w.nowMillis,
        api_version := "2.1.0" } }

/-- The response of the handler together with the ordered list of
backends the request consulted. -/
structure HandlerResult where
  status : ℕ
  body : AnalysisResults
  trace : List Backend
deriving DecidableEq, Repr

/-- The `POST /api/analyze` handler of the enhanced server
(`src/unnamed/part_005`, lines 202–314): pick the cloud-function,
local-AI, or standard branch; the cloud branch's inner catch falls
back to `analyzeRepositoryWithAI` and marks `cloud_function_fallback`;
the outer catch produces the 500 body. -/
def analyzeHandler (w : World) (b : AnalyzeReqBody) : HandlerResult :=
  let repoPath := b.repoPath
  let commitHash := b.commitHash
  let analysisType := b.analysisType.getD "comprehensive"
  let useAI := b.useAI.getD true
  let useCloudFunction := b.useCloudFunction.getD false
  let svc : ServiceState := { isInitialized := w.svcInitialized, endpointId := w.svcEndpointId }
  let core : Except JsError AnalysisResults × List Backend :=
    if useCloudFunction && strTruthy w.cloudFunctionUrl then
      match serverCloudCall w repoPath commitHash with
      | (Except.ok r, tr) => (Except.ok r, tr)
      | (Except.error _, tr) =>
          match analyzeRepositoryWithAI svc w repoPath
              { commitHash := commitHash, analysisType := some analysisType,
                useCloudFunction := some false } with
          | (Except.ok r, tr2) =>
              (Except.ok { r with cloud_function_fallback := some true }, tr ++ tr2)
          | (Except.error e, tr2) => (Except.error e, tr ++ tr2)
    else if useAI then
      analyzeRepositoryWithAI svc w repoPath
        { commitHash := commitHash, analysisType := some analysisType,
          useCloudFunction := some false }
    else
      (Except.ok (standardAnalysis w repoPath commitHash), [Backend.standard])
  match core with
  | (Except.ok r, tr) =>
      { status := 200,
        body := addRequestMetadata w analysisType useAI useCloudFunction r,
        trace := tr }
  | (Except.error e, tr) =>
      { status := 500, body := analyzeErrorBody w e repoPath commitHash, trace := tr }

/-- Whether a fetch outcome takes the failure path of the server's
cloud branch (`!response.ok` or a rejected `fetch`). -/
def FetchOutcome.failed : FetchOutcome → Bool
  | FetchOutcome.ok _ => false
  | FetchOutcome.httpError _ => true
  | FetchOutcome.networkError _ => true

/-- Whether a promise-modelling value resolved (did not reject). -/
def isResolved {α : Type} : Except JsError α → Bool
  | Except.ok _ => true
  | Except.error _ => false

/-- A concrete world used by witnesses and counterexamples: the remote
URL is configured but the cloud function answers HTTP 500, the service
is uninitialized, and the local process exits with status 1. -/
def wBase : World :=
  { cloudFunctionUrl := some "https://us-central1-demo.cloudfunctions.net/analyze_code",
    fetchOutcome := FetchOutcome.httpError "Internal Server Error",
    svcFetch := SvcFetchOutcome.networkError "fetch failed",
    svcInitialized := false,
    svcEndpointId := none,
    localOutcome := LocalOutcome.processFailure 1 "Traceback (most recent call last)",
    randCloudScore := 0,
    randFallbackScore := 0,
    randFallbackFiles := 0,
    randStdScore := 0,
    randStdFiles := 0,
    now := "2025-01-01T00:00:00.000Z",
    nowMillis := 1735689600000 }

/-- A concrete `analysisData` record used by witnesses and
counterexamples. -/
def dBase : AnalysisData :=
  { repoPath := some "/repo", commitHash := "HEAD",
    analysisType := "comprehensive", useCloudFunction := false }

/-- A concrete successful cloud-function response body used by
witnesses and counterexamples. -/
def crOk : CloudResult :=
  { status := "success",
    issues := some [],
    metadata := some { files_analyzed := some 10 },
    repository_analysis := some
      { overall_score := 88, total_files := 10,
        risk_level := "medium", deployment_ready := true } }

/-! ### Claims -/

/-- C7: every `GET /api/issues` response lists its issues ordered by
ascending `remediation_priority`, with ties broken by descending
`confidence` — for every filter combination. -/
theorem C7_issues_response_sorted (q : IssuesQuery) :
    List.Sorted issueLE (issuesHandler q).issues :=
  List.sorted_insertionSort issueLE (applyFilters q fixedIssues)

/-- C8: two calls to the deterministic fallback with the same request
(same repository path and options) but arbitrary different random
draws and clocks produce issue lists with identical categories — the
`(type, severity)` pair at every position, in the same order. -/
theorem C8_fallback_issue_categories_stable (w w' : World)
    (repoPath optsCommitHash : Option String) :
    ((getFallbackAnalysis w repoPath optsCommitHash).issues.getD []).map
        (fun i => (i.type, i.severity)) =
      ((getFallbackAnalysis w' repoPath optsCommitHash).issues.getD []).map
        (fun i => (i.type, i.severity)) :=
  rfl

/-- C10: whenever the filter combination of a `GET /api/issues` request
matches zero issues of the fixed set, the response still carries
`issues: []` and `total_issues: 0`, but `avg_confidence` is the
JavaScript quotient `0 / 0`, i.e. `NaN`, which `JSON.stringify`
serializes as `null` — not a defaulted numeric value. -/
theorem C10_empty_filter_avg_confidence_nan (q : IssuesQuery)
    (h : applyFilters q fixedIssues = []) :
    (issuesHandler q).issues = [] ∧
    (issuesHandler q).metadata.total_issues = 0 ∧
    (issuesHandler q).metadata.avg_confidence = JsNum.nan ∧
    (issuesHandler q).metadata.avg_confidence.toJsonNumber = none := by
  simp [issuesHandler, h, List.insertionSort, jsDiv, JsNum.toJsonNumber]

/-- Witness for C10: the filters `type=security`, `severity=low` match
no fixed issue, and the response has an empty issue list, a zero
total, and a `NaN` (JSON `null`) average confidence. -/
theorem C10_witness :
    applyFilters
        { type := some "security", severity := some "low",
          ai_only := none, cloud_function_only := none } fixedIssues = [] ∧
      ((issuesHandler
          { type := some "security", severity := some "low",
            ai_only := none, cloud_function_only := none }).issues = [] ∧
        (issuesHandler
          { type := some "security", severity := some "low",
            ai_only := none, cloud_function_only := none }).metadata.total_issues = 0 ∧
        (issuesHandler
          { type := some "security", severity := some "low",
            ai_only := none, cloud_function_only := none }).metadata.avg_confidence = JsNum.nan ∧
        (issuesHandler
          { type := some "security", severity := some "low",
            ai_only := none, cloud_function_only := none }).metadata.avg_confidence.toJsonNumber = none) :=
  ⟨by decide,
   C10_empty_filter_avg_confidence_nan
     { type := some "security", severity := some "low",
       ai_only := none, cloud_function_only := none } (by decide)⟩

/-- `analyzeRepositoryWithAI` never rejects: every failure inside it is
caught and converted into the deterministic fallback, and it always
consults at least one backend. -/
theorem analyzeRepositoryWithAI_resolves (svc : ServiceState) (w : World)
    (repoPath : Option String) (opts : SvcOptions) :
    isResolved (analyzeRepositoryWithAI svc w repoPath opts).1 = true ∧
      (analyzeRepositoryWithAI svc w repoPath opts).2 ≠ [] := by
  unfold analyzeRepositoryWithAI
  cases hini : svc.isInitialized with
  | false => simp [isResolved]
  | true =>
    simp only [hini]
    cases hucf : opts.useCloudFunction.getD false with
    | false =>
      cases hlo : w.localOutcome <;>
        simp [analyzeWithLocalEndpoint, hlo, hucf, isResolved]
    | true =>
      unfold analyzeWithCloudFunction
      cases hurl : strTruthy w.cloudFunctionUrl <;>
        cases hsf : w.svcFetch <;>
          simp [hurl, hsf, hucf, isResolved]

/-- The `POST /api/analyze` handler always answers HTTP 200 (its outer
catch is unreachable: every backend failure is absorbed earlier), and
always consults at least one backend. -/
theorem analyzeHandler_ok (w : World) (b : AnalyzeReqBody) :
    (analyzeHandler w b).status = 200 ∧ (analyzeHandler w b).trace ≠ [] := by
  unfold analyzeHandler
  cases hcf : (b.useCloudFunction.getD false && strTruthy w.cloudFunctionUrl) with
  | false =>
    cases hua : b.useAI.getD true with
    | false => simp [hcf, hua]
    | true =>
      simp only [hcf, hua, Bool.false_eq_true, if_false, if_true]
      obtain ⟨h1, h2⟩ := analyzeRepositoryWithAI_resolves
        { isInitialized := w.svcInitialized, endpointId := w.svcEndpointId } w b.repoPath
        { commitHash := b.commitHash, analysisType := some (b.analysisType.getD "comprehensive"),
          useCloudFunction := some false }
      cases hres : analyzeRepositoryWithAI
          { isInitialized := w.svcInitialized, endpointId := w.svcEndpointId } w b.repoPath
          { commitHash := b.commitHash, analysisType := some (b.analysisType.getD "comprehensive"),
            useCloudFunction := some false } with
      | mk res tr =>
        rw [hres] at h1 h2
        cases res with
        | ok r => simp_all
        | error e => simp [isResolved] at h1
  | true =>
    cases hfo : w.fetchOutcome with
    | ok cr => simp [hcf, serverCloudCall, hfo]
    | httpError st =>
      simp only [hcf, serverCloudCall, hfo, if_true]
      obtain ⟨h1, h2⟩ := analyzeRepositoryWithAI_resolves
        { isInitialized := w.svcInitialized, endpointId := w.svcEndpointId } w b.repoPath
        { commitHash := b.commitHash, analysisType := some (b.analysisType.getD "comprehensive"),
          useCloudFunction := some false }
      cases hres : analyzeRepositoryWithAI
          { isInitialized := w.svcInitialized, endpointId := w.svcEndpointId } w b.repoPath
          { commitHash := b.commitHash, analysisType := some (b.analysisType.getD "comprehensive"),
            useCloudFunction := some false } with
      | mk res tr =>
        rw [hres] at h1 h2
        cases res with
        | ok r => simp_all
        | error e => simp [isResolved] at h1
    | networkError m =>
      simp only [hcf, serverCloudCall, hfo, if_true]
      obtain ⟨h1, h2⟩ := analyzeRepositoryWithAI_resolves
        { isInitialized := w.svcInitialized, endpointId := w.svcEndpointId } w b.repoPath
        { commitHash := b.commitHash, analysisType := some (b.analysisType.getD "comprehensive"),
          useCloudFunction := some false }
      cases hres : analyzeRepositoryWithAI
          { isInitialized := w.svcInitialized, endpointId := w.svcEndpointId } w b.repoPath
          { commitHash := b.commitHash, analysisType := some (b.analysisType.getD "comprehensive"),
            useCloudFunction := some false } with
      | mk res tr =>
        rw [hres] at h1 h2
        cases res with
        | ok r => simp_all
        | error e => simp [isResolved] at h1

/-- C3 counterexample: a `POST /api/analyze` request whose body has no
`repoPath` is answered with HTTP 200 — not a 4xx client error — and a
backend (here the deterministic fallback) IS attempted. -/
theorem C3_counterexample :
    (analyzeHandler wBase
        { repoPath := none, commitHash := none, analysisType := none,
          useAI := none, useCloudFunction := none }).status = 200 ∧
      (analyzeHandler wBase
        { repoPath := none, commitHash := none, analysisType := none,
          useAI := none, useCloudFunction := none }).trace = [Backend.deterministic] :=
  ⟨rfl, rfl⟩

/-- C3 amended: the handler performs no validation of the repository
locator: a request with a missing `repoPath` is routed through the
normal backend chain (at least one backend is consulted) and answered
with HTTP 200, never with a client-error status. -/
theorem C3_amended_missing_repoPath_not_rejected (w : World) (b : AnalyzeReqBody)
    (_h : b.repoPath = none) :
    (analyzeHandler w b).status = 200 ∧ (analyzeHandler w b).trace ≠ [] :=
  analyzeHandler_ok w b

/-- Witness for the amended C3, at a concrete world and a body without
`repoPath`. -/
theorem C3_amended_witness :
    (analyzeHandler wBase
        { repoPath := none, commitHash := none, analysisType := none,
          useAI := some true, useCloudFunction := some false }).status = 200 ∧
      (analyzeHandler wBase
        { repoPath := none, commitHash := none, analysisType := none,
          useAI := some true, useCloudFunction := some false }).trace ≠ [] :=
  C3_amended_missing_repoPath_not_rejected wBase
    { repoPath := none, commitHash := none, analysisType := none,
      useAI := some true, useCloudFunction := some false } rfl

/-- C4 counterexample: the catch branch of `POST /api/analyze` puts the
backend error's message verbatim into the `error` field of the HTTP
500 body — more than a summarized message and a success flag crosses
the boundary. -/
theorem C4_counterexample :
    (analyzeErrorBody wBase { message := "connect ECONNREFUSED 203.0.113.7:443" }
        (some "/repo") none).error =
      some "connect ECONNREFUSED 203.0.113.7:443" :=
  rfl

/-- C4 amended: the 500 body built by the catch branch carries the
success flag and the fixed summary message, but additionally the
backend error's message verbatim in its `error` field, plus a
`fallback_available` flag; only the stack trace stays in server-side
logs. -/
theorem C4_amended_error_body_fields (w : World) (e : JsError)
    (repoPath commitHash : Option String) :
    (analyzeErrorBody w e repoPath commitHash).success = some false ∧
      (analyzeErrorBody w e repoPath commitHash).message = some "Analysis failed" ∧
      (analyzeErrorBody w e repoPath commitHash).error = some e.message ∧
      (analyzeErrorBody w e repoPath commitHash).fallback_available = some true :=
  ⟨rfl, rfl, rfl, rfl⟩

/-- C5 counterexample: the local adapter actually used by the enhanced
server (`AdvancedAIService.analyzeWithLocalEndpoint`) does NOT yield
an Error when the spawned process exits with a non-zero status — it
resolves with the deterministic fallback analysis instead. -/
theorem C5_counterexample :
    isResolved (analyzeWithLocalEndpoint { isInitialized := true, endpointId := none }
        wBase dBase).1 = true ∧
      (analyzeWithLocalEndpoint { isInitialized := true, endpointId := none }
          wBase dBase).1 =
        Except.ok (getFallbackAnalysis wBase (some "/repo") (some "HEAD")) :=
  ⟨rfl, rfl⟩

/-- C5 amended: of the two local adapters,
`AIAnalysisService.analyzeWithAI` rejects with an `Error` on a
non-zero exit status or a JSON parse failure, while
`AdvancedAIService.analyzeWithLocalEndpoint` resolves with the
deterministic fallback analysis in both failure cases (regardless of
any partial output collected). -/
theorem C5_amended_adapter_failure_behaviour (svc : ServiceState) (w : World)
    (d : AnalysisData) (code : ℤ) (stderr partialOut : String) :
    analyzeWithAI (SpawnEvent.closed (LocalOutcome.parseFailure partialOut)) =
        Except.error { message := "Invalid AI analysis output" } ∧
      analyzeWithAI (SpawnEvent.closed (LocalOutcome.processFailure code stderr)) =
        Except.error { message := "AI analysis process exited with code " ++ toString code } ∧
      (analyzeWithLocalEndpoint svc
          { w with localOutcome := LocalOutcome.parseFailure partialOut } d).1 =
        Except.ok (getFallbackAnalysis
          { w with localOutcome := LocalOutcome.parseFailure partialOut }
          d.repoPath (some d.commitHash)) ∧
      (analyzeWithLocalEndpoint svc
          { w with localOutcome := LocalOutcome.processFailure code stderr } d).1 =
        Except.ok (getFallbackAnalysis
          { w with localOutcome := LocalOutcome.processFailure code stderr }
          d.repoPath (some d.commitHash)) :=
  ⟨rfl, rfl, rfl, rfl⟩

/-- When `analyzeRepositoryWithAI` is invoked with
`useCloudFunction: false` (as the server always does), its trace is one
of the three local shapes: fallback only, local process only, or local
process followed by fallback — never a remote backend. -/
theorem analyzeRepositoryWithAI_local_trace (svc : ServiceState) (w : World)
    (repoPath : Option String) (opts : SvcOptions)
    (h : opts.useCloudFunction = some false) :
    (analyzeRepositoryWithAI svc w repoPath opts).2 = [Backend.deterministic] ∨
      (analyzeRepositoryWithAI svc w repoPath opts).2 = [Backend.localProcess] ∨
      (analyzeRepositoryWithAI svc w repoPath opts).2 =
        [Backend.localProcess, Backend.deterministic] := by
  unfold analyzeRepositoryWithAI
  cases hini : svc.isInitialized with
  | false => simp
  | true =>
    cases hlo : w.localOutcome <;>
      simp [analyzeWithLocalEndpoint, hlo, h, hini]

/-- C6: a request with `useCloudFunction: true` while no remote URL is
configured never consults the remote backend (neither the server-level
fetch nor the service-level one); it proceeds directly to the local-AI
path when `useAI` holds (by default) and to the standard branch
otherwise. -/
theorem C6_no_url_skips_remote (w : World) (b : AnalyzeReqBody)
    (hcf : b.useCloudFunction = some true)
    (hurl : strTruthy w.cloudFunctionUrl = false) :
    Backend.remote ∉ (analyzeHandler w b).trace ∧
      Backend.svcRemote ∉ (analyzeHandler w b).trace ∧
      (b.useAI.getD true = true →
        (analyzeHandler w b).trace =
          (analyzeRepositoryWithAI
            { isInitialized := w.svcInitialized, endpointId := w.svcEndpointId }
            w b.repoPath
            { commitHash := b.commitHash,
              analysisType := some (b.analysisType.getD "comprehensive"),
              useCloudFunction := some false }).2) ∧
      (b.useAI.getD true = false → (analyzeHandler w b).trace = [Backend.standard]) := by
  have hb : b.useCloudFunction.getD false = true := by rw [hcf]; rfl
  unfold analyzeHandler
  simp only [hb, hurl, Bool.and_false, Bool.false_eq_true, if_false]
  cases hua : b.useAI.getD true with
  | false => simp
  | true =>
    simp only [if_true]
    obtain ⟨h1, _⟩ := analyzeRepositoryWithAI_resolves
      { isInitialized := w.svcInitialized, endpointId := w.svcEndpointId } w b.repoPath
      { commitHash := b.commitHash, analysisType := some (b.analysisType.getD "comprehensive"),
        useCloudFunction := some false }
    have htr := analyzeRepositoryWithAI_local_trace
      { isInitialized := w.svcInitialized, endpointId := w.svcEndpointId } w b.repoPath
      { commitHash := b.commitHash, analysisType := some (b.analysisType.getD "comprehensive"),
        useCloudFunction := some false } rfl
    cases hres : analyzeRepositoryWithAI
        { isInitialized := w.svcInitialized, endpointId := w.svcEndpointId } w b.repoPath
        { commitHash := b.commitHash, analysisType := some (b.analysisType.getD "comprehensive"),
          useCloudFunction := some false } with
    | mk res tr =>
      rw [hres] at h1 htr
      cases res with
      | error e => simp [isResolved] at h1
      | ok r =>
        simp only at htr ⊢
        rcases htr with h | h | h <;> rw [h] <;> simp

/-- Witness for C6: with no configured URL and `useCloudFunction: true`,
the concrete request consults no remote backend and takes the local-AI
path. -/
theorem C6_witness :
    Backend.remote ∉ (analyzeHandler { wBase with cloudFunctionUrl := none }
        { repoPath := some "/tmp/x", commitHash := none, analysisType := none,
          useAI := none, useCloudFunction := some true }).trace ∧
      Backend.svcRemote ∉ (analyzeHandler { wBase with cloudFunctionUrl := none }
        { repoPath := some "/tmp/x", commitHash := none, analysisType := none,
          useAI := none, useCloudFunction := some true }).trace ∧
      ((none : Option Bool).getD true = true →
        (analyzeHandler { wBase with cloudFunctionUrl := none }
          { repoPath := some "/tmp/x", commitHash := none, analysisType := none,
            useAI := none, useCloudFunction := some true }).trace =
          (analyzeRepositoryWithAI
            { isInitialized := { wBase with cloudFunctionUrl := none }.svcInitialized,
              endpointId := { wBase with cloudFunctionUrl := none }.svcEndpointId }
            { wBase with cloudFunctionUrl := none } (some "/tmp/x")
            { commitHash := none, analysisType := some ((none : Option String).getD "comprehensive"),
              useCloudFunction := some false }).2) ∧
      ((none : Option Bool).getD true = false →
        (analyzeHandler { wBase with cloudFunctionUrl := none }
          { repoPath := some "/tmp/x", commitHash := none, analysisType := none,
            useAI := none, useCloudFunction := some true }).trace = [Backend.standard]) :=
  C6_no_url_skips_remote { wBase with cloudFunctionUrl := none }
    { repoPath := some "/tmp/x", commitHash := none, analysisType := none,
      useAI := none, useCloudFunction := some true } rfl rfl

/-- C1: when `useCloudFunction: true`, a remote URL is configured, and
the remote call fails (non-2xx or network error), the handler still
answers HTTP 200, the body carries the `cloud_function_fallback: true`
marker, and the request metadata is attached — no rejection reaches
the caller. -/
theorem C1_cloud_failure_returns_fallback (w : World) (b : AnalyzeReqBody)
    (hcf : b.useCloudFunction = some true)
    (hurl : strTruthy w.cloudFunctionUrl = true)
    (hfail : w.fetchOutcome.failed = true) :
    (analyzeHandler w b).status = 200 ∧
      (analyzeHandler w b).body.cloud_function_fallback = some true ∧
      (analyzeHandler w b).body.request_metadata.isSome = true := by
  have hb : b.useCloudFunction.getD false = true := by rw [hcf]; rfl
  unfold analyzeHandler
  simp only [hb, hurl, Bool.and_self, if_true]
  obtain ⟨h1, _⟩ := analyzeRepositoryWithAI_resolves
    { isInitialized := w.svcInitialized, endpointId := w.svcEndpointId } w b.repoPath
    { commitHash := b.commitHash, analysisType := some (b.analysisType.getD "comprehensive"),
      useCloudFunction := some false }
  cases hres : analyzeRepositoryWithAI
      { isInitialized := w.svcInitialized, endpointId := w.svcEndpointId } w b.repoPath
      { commitHash := b.commitHash, analysisType := some (b.analysisType.getD "comprehensive"),
        useCloudFunction := some false } with
  | mk res tr =>
    rw [hres] at h1
    cases res with
    | error e => simp [isResolved] at h1
    | ok r =>
      cases hfo : w.fetchOutcome with
      | ok cr => rw [hfo] at hfail; simp [FetchOutcome.failed] at hfail
      | httpError st => simp [serverCloudCall, hfo, hres, addRequestMetadata]
      | networkError m => simp [serverCloudCall, hfo, hres, addRequestMetadata]

/-- Witness for C1: the concrete world `wBase` has a configured URL and
an HTTP 500 from the remote backend; the concrete request still gets a
200 with the fallback marker. -/
theorem C1_witness :
    (analyzeHandler wBase
        { repoPath := some "/tmp/x", commitHash := none, analysisType := none,
          useAI := none, useCloudFunction := some true }).status = 200 ∧
      (analyzeHandler wBase
        { repoPath := some "/tmp/x", commitHash := none, analysisType := none,
          useAI := none, useCloudFunction := some true }).body.cloud_function_fallback =
        some true ∧
      (analyzeHandler wBase
        { repoPath := some "/tmp/x", commitHash := none, analysisType := none,
          useAI := none, useCloudFunction := some true }).body.request_metadata.isSome =
        true :=
  C1_cloud_failure_returns_fallback wBase
    { repoPath := some "/tmp/x", commitHash := none, analysisType := none,
      useAI := none, useCloudFunction := some true } rfl (by decide) rfl

/-- C9: a request with `useAI: false` that does not select the cloud
function takes the standard branch: the response body has
`ai_powered: false` and a populated `repository_analysis` whose
`overall_score` is `Math.floor(random * 20) + 80`, which lies in
`[80, 100)` for every random draw in `[0, 1)`. -/
theorem C9_standard_branch_score_bounds (w : World) (b : AnalyzeReqBody)
    (hAI : b.useAI = some false)
    (hcf : (b.useCloudFunction.getD false && strTruthy w.cloudFunctionUrl) = false)
    (h0 : 0 ≤ w.randStdScore) (h1 : w.randStdScore < 1) :
    (analyzeHandler w b).body.ai_powered = some false ∧
      (analyzeHandler w b).body.repository_analysis =
        some { overall_score := mathFloor (w.randStdScore * 20) + 80,
               total_files := mathFloor (w.randStdFiles * 20) + 40,
               risk_level := "medium", deployment_ready := true } ∧
      80 ≤ mathFloor (w.randStdScore * 20) + 80 ∧
      mathFloor (w.randStdScore * 20) + 80 < 100 := by
  have hua : b.useAI.getD true = false := by rw [hAI]; rfl
  have hfloor0 : (0 : ℤ) ≤ mathFloor (w.randStdScore * 20) := by
    rw [mathFloor]
    exact Int.floor_nonneg.mpr (mul_nonneg h0 (by norm_num))
  have hfloor20 : mathFloor (w.randStdScore * 20) < 20 := by
    rw [mathFloor]
    refine Int.floor_lt.mpr ?_
    push_cast
    nlinarith
  refine ⟨?_, ?_, by linarith, by linarith⟩
  · unfold analyzeHandler
    simp [hcf, hua, standardAnalysis, addRequestMetadata]
  · unfold analyzeHandler
    simp [hcf, hua, standardAnalysis, addRequestMetadata]

/-- Witness for C9: a concrete `useAI: false` request against `wBase`
(whose standard-branch random draw is `0`) gets `ai_powered: false`
and an `overall_score` of `80`, inside `[80, 100)`. -/
theorem C9_witness :
    (analyzeHandler wBase
        { repoPath := some "/tmp/x", commitHash := none, analysisType := none,
          useAI := some false, useCloudFunction := none }).body.ai_powered = some false ∧
      (analyzeHandler wBase
        { repoPath := some "/tmp/x", commitHash := none, analysisType := none,
          useAI := some false, useCloudFunction := none }).body.repository_analysis =
        some { overall_score := mathFloor (wBase.randStdScore * 20) + 80,
               total_files := mathFloor (wBase.randStdFiles * 20) + 40,
               risk_level := "medium", deployment_ready := true } ∧
      80 ≤ mathFloor (wBase.randStdScore * 20) + 80 ∧
      mathFloor (wBase.randStdScore * 20) + 80 < 100 :=
  C9_standard_branch_score_bounds wBase
    { repoPath := some "/tmp/x", commitHash := none, analysisType := none,
      useAI := some false, useCloudFunction := none }
    rfl rfl (le_refl 0) zero_lt_one

/-- C2 counterexample: the standard branch and the (successful)
cloud-function branch of `POST /api/analyze` expose DIFFERENT
top-level field sets to the caller — the standard body has
`ai_powered` but no `issues`/`metadata`/`cloud_function_used`, the
cloud body the reverse. -/
theorem C2_counterexample :
    (analyzeHandler wBase
        { repoPath := some "/repo", commitHash := some "abc123", analysisType := none,
          useAI := some false, useCloudFunction := some false }).body.jsonKeys ≠
      (analyzeHandler
        { wBase with fetchOutcome := FetchOutcome.ok crOk }
        { repoPath := some "/repo", commitHash := some "abc123", analysisType := none,
          useAI := none, useCloudFunction := some true }).body.jsonKeys := by
  decide

/-- C2 amended: every backend's body shares the common core fields
`success`, `message`, `repoPath`, `commitHash`, `timestamp`,
`repository_analysis` plus the handler's `request_metadata`, but the
full top-level field sets differ by backend: the cloud branch adds
`issues`, `metadata` and `cloud_function_used`; the standard branch
adds `ai_powered`; the deterministic fallback adds `issues`,
`ai_powered`, `fallback_mode`, `recommendations` and `summary`. -/
theorem C2_amended_field_sets_by_backend (w : World) (p c : String)
    (cr : CloudResult) (m : CloudMetadata)
    (hurl : strTruthy w.cloudFunctionUrl = true)
    (hm : cr.metadata = some m) :
    ((analyzeHandler w
        { repoPath := some p, commitHash := some c, analysisType := none,
          useAI := some false, useCloudFunction := some false }).body.jsonKeys =
      ["success", "message", "repoPath", "commitHash", "timestamp",
       "repository_analysis", "ai_powered", "request_metadata"]) ∧
      ((analyzeHandler { w with fetchOutcome := FetchOutcome.ok cr }
        { repoPath := some p, commitHash := some c, analysisType := none,
          useAI := none, useCloudFunction := some true }).body.jsonKeys =
        ["success", "message", "repoPath", "commitHash", "timestamp", "issues",
         "metadata", "cloud_function_used", "repository_analysis",
         "request_metadata"]) ∧
      ((analyzeHandler { w with svcInitialized := false }
        { repoPath := some p, commitHash := some c, analysisType := none,
          useAI := some true, useCloudFunction := some false }).body.jsonKeys =
        ["success", "message", "repoPath", "commitHash", "timestamp", "issues",
         "repository_analysis", "ai_powered", "fallback_mode", "recommendations",
         "summary", "request_metadata"]) := by
  refine ⟨?_, ?_, ?_⟩
  · unfold analyzeHandler
    simp [standardAnalysis, addRequestMetadata, AnalysisResults.jsonKeys]
  · unfold analyzeHandler
    simp [hurl, serverCloudCall, addRequestMetadata, AnalysisResults.jsonKeys, hm]
  · unfold analyzeHandler
    simp [analyzeRepositoryWithAI, getFallbackAnalysis, addRequestMetadata,
      AnalysisResults.jsonKeys]

/-- Witness for the amended C2, at the concrete world `wBase` and a
concrete successful cloud result. -/
theorem C2_amended_witness :
    ((analyzeHandler wBase
        { repoPath := some "/repo", commitHash := some "abc123", analysisType := none,
          useAI := some false, useCloudFunction := some false }).body.jsonKeys =
      ["success", "message", "repoPath", "commitHash", "timestamp",
       "repository_analysis", "ai_powered", "request_metadata"]) ∧
      ((analyzeHandler { wBase with fetchOutcome := FetchOutcome.ok crOk }
        { repoPath := some "/repo", commitHash := some "abc123", analysisType := none,
          useAI := none, useCloudFunction := some true }).body.jsonKeys =
        ["success", "message", "repoPath", "commitHash", "timestamp", "issues",
         "metadata", "cloud_function_used", "repository_analysis",
         "request_metadata"]) ∧
      ((analyzeHandler { wBase with svcInitialized := false }
        { repoPath := some "/repo", commitHash := some "abc123", analysisType := none,
          useAI := some true, useCloudFunction := some false }).body.jsonKeys =
        ["success", "message", "repoPath", "commitHash", "timestamp", "issues",
         "repository_analysis", "ai_powered", "fallback_mode", "recommendations",
         "summary", "request_metadata"]) :=
  C2_amended_field_sets_by_backend wBase "/repo" "abc123"
    crOk { files_analyzed := some 10 } (by decide) rfl
